import Mathlib

/-!
# Verification of the timer-bot core (store, backup manager)

Shallow embedding of the repository's core operations:
* `database.py` — the `Database` class: `add_user`, `add_timer`,
  `check_expired_timers`, `delete_timer`, over the `users` and `timers`
  SQLite tables.
* `backup.py` — the `DatabaseBackup` class: `create_backup`,
  `cleanup_old_backups`, `restore_from_backup`.
* `config.py` — the `Config` dataclass.

Each SQL transaction is modelled as one atomic Lean function on an explicit
database state (`DB`); timestamps are integers in seconds; the SQLite
`PRAGMA integrity_check` (a function of the file's bytes) is modelled as a
boolean predicate parameter on file contents.
-/

namespace TimerBot

/-- The `status TEXT` column of the `timers` table: the code writes exactly
the values `'active'`, `'completed'`, `'cancelled'` (database.py lines 32,
100, 165, 193). -/
inductive Status where
  | active
  | completed
  | cancelled
deriving DecidableEq, Repr

/-- One row of the `timers` table (database.py lines 24–37).
`timerId` is the AUTOINCREMENT primary key; `created_at` is not modelled
(never read by the code). -/
structure Timer where
  timerId : Nat
  userId : Int
  startTime : Int
  endTime : Int
  duration : Int
  timerNumber : Nat
  status : Status
  notified : Bool
deriving DecidableEq, Repr

/-- One row of the `users` table (database.py lines 15–22);
`created_at` is not modelled (never read by the code). -/
structure UserRow where
  userId : Int
  username : String
  activeTimers : Nat
deriving DecidableEq, Repr

/-- The database state: both tables plus the AUTOINCREMENT counter that
produces `timer_id` values. -/
structure DB where
  users : List UserRow
  timers : List Timer
  nextTimerId : Nat
deriving DecidableEq, Repr

/-- A freshly created database (after `create_tables`). SQLite AUTOINCREMENT
starts at 1. -/
def emptyDB : DB := ⟨[], [], 1⟩

/-- The row predicate `user_id = ? AND status = "active"` used by the
`SELECT COUNT(*)` in `add_timer` (line 87) and the recount `UPDATE`s
(lines 111–119, 170–177, 198–206). -/
def isActiveFor (uid : Int) (t : Timer) : Bool :=
  t.userId == uid && t.status == Status.active

/-- Embeds `SELECT COUNT(*) FROM timers WHERE user_id = ? AND
status = 'active'`. -/
def countActive (ts : List Timer) (uid : Int) : Nat :=
  (ts.filter (isActiveFor uid)).length

/-- The active-timer count of a user in the current state. -/
def activeCount (db : DB) (uid : Int) : Nat :=
  countActive db.timers uid

/-- Embeds `SELECT COALESCE(MAX(timer_number), 0) FROM timers WHERE
user_id = ?` (database.py lines 98–99): the maximum `timer_number` over ALL
of the user's timers, of any status, 0 when the user has none. -/
def maxTimerNumber (db : DB) (uid : Int) : Nat :=
  (db.timers.filter (fun t => t.userId == uid)).foldr (fun t m => max t.timerNumber m) 0

/-- Embeds `Database.add_user` (database.py lines 64–76):
`INSERT OR IGNORE INTO users (user_id, username)`; `active_timers`
takes its column default 0. Returns `true` on the non-error path. -/
def addUser (db : DB) (uid : Int) (name : String) : Bool × DB :=
  if db.users.any (fun u => u.userId == uid) then (true, db)
  else (true, { db with users := db.users ++ [⟨uid, name, 0⟩] })

/-- The `UPDATE users SET active_timers = (SELECT COUNT(*) ...) WHERE
user_id = ?` statement shared by `add_timer` (lines 111–119) and
`delete_timer` (lines 198–206): recounts one user's row against the
(already updated) `timers` table. -/
def recountUser (uid : Int) (timers : List Timer) (u : UserRow) : UserRow :=
  if u.userId == uid then { u with activeTimers := countActive timers uid } else u

/-- The row inserted by `add_timer` (database.py lines 94–108):
`timer_number = COALESCE(MAX,0)+1`, `status='active'`, `notified`
defaulting to false, `end_time = start_time + duration` hours
(`timedelta(hours=duration)` in seconds). -/
def newTimerOf (db : DB) (uid : Int) (duration : Int) (startTime : Int) : Timer :=
  { timerId := db.nextTimerId
    userId := uid
    startTime := startTime
    endTime := startTime + duration * 3600
    duration := duration
    timerNumber := maxTimerNumber db uid + 1
    status := Status.active
    notified := false }

/-- Embeds `Database.add_timer` (database.py lines 78–126), the success path
of the transaction: count the user's active timers and return `None` when
the count is `>= 3` (the literal 3 at line 90) leaving the state untouched;
otherwise insert the new row, recount the user's `active_timers`, commit,
and return the new row's id. -/
def addTimer (db : DB) (uid : Int) (duration : Int) (startTime : Int) :
    Option Nat × DB :=
  if 3 ≤ activeCount db uid then (none, db)
  else
    let timers := db.timers ++ [newTimerOf db uid duration startTime]
    ( some db.nextTimerId,
      { users := db.users.map (recountUser uid timers)
        timers := timers
        nextTimerId := db.nextTimerId + 1 } )

/-- Embeds `Database.add_timer` including the `except Exception` handler
(lines 124–126): any storage error makes the call return `None`; a failure
inside the transaction means the connection closes without `commit`, so
the state rolls back unchanged. `storageError` is the oracle for whether
the underlying storage call raises. -/
def addTimerWithErr (storageError : Bool) (db : DB) (uid : Int)
    (duration : Int) (startTime : Int) : Option Nat × DB :=
  if storageError then (none, db) else addTimer db uid duration startTime

/-- Embeds `EXISTS (SELECT 1 FROM users u WHERE u.user_id = t.user_id)`: the effect
of the inner `JOIN users u ON t.user_id = u.user_id` in
`check_expired_timers` (line 152) on which timer rows are selected. -/
def hasUser (db : DB) (uid : Int) : Bool :=
  db.users.any (fun u => u.userId == uid)

/-- The row predicate of the `SELECT` in `check_expired_timers`
(lines 149–156): `t.status = 'active' AND t.end_time <= ? AND
t.notified = FALSE`, joined with an existing `users` row. -/
def isExpiredRow (db : DB) (now : Int) (t : Timer) : Bool :=
  t.status == Status.active && decide (t.endTime ≤ now) && !t.notified
    && hasUser db t.userId

/-- The snapshot of expired rows captured by the `SELECT` at read time
(the `username` column added by the join is presentation data and is
omitted). -/
def expiredOf (db : DB) (now : Int) : List Timer :=
  db.timers.filter (isExpiredRow db now)

/-- Embeds `UPDATE timers SET status = 'completed', notified = TRUE WHERE timer_id
IN (...)` (lines 163–167), keyed by the list of primary keys captured at
read time. -/
def markCompleted (ids : List Nat) (t : Timer) : Timer :=
  if decide (t.timerId ∈ ids) then
    { t with status := Status.completed, notified := true }
  else t

/-- Embeds `Database.check_expired_timers` (database.py lines 143–185): select the
expired rows; if any, mark exactly that selected set completed+notified by
primary key and recount `active_timers` for every user (the `UPDATE users`
at lines 170–177 has no WHERE clause); return the pre-update snapshot. -/
def checkExpiredTimers (db : DB) (now : Int) : List Timer × DB :=
  let expired := expiredOf db now
  if expired.isEmpty then (expired, db)
  else
    let ids := expired.map (fun t => t.timerId)
    let timers := db.timers.map (markCompleted ids)
    ( expired,
      { users := db.users.map (fun u => { u with activeTimers := countActive timers u.userId })
        timers := timers
        nextTimerId := db.nextTimerId } )

/-- Embeds `Database.delete_timer` (database.py lines 187–213): `UPDATE timers SET
status = 'cancelled' WHERE user_id = ? AND timer_number = ? AND
status = 'active'`, then recount the user's `active_timers`. The non-error
path returns `True` unconditionally (line 209) — the row count of the
UPDATE is never inspected. -/
def deleteTimer (db : DB) (uid : Int) (num : Nat) : Bool × DB :=
  let timers := db.timers.map (fun t =>
    if t.userId == uid && t.timerNumber == num && t.status == Status.active
    then { t with status := Status.cancelled } else t)
  ( true,
    { users := db.users.map (recountUser uid timers)
      timers := timers
      nextTimerId := db.nextTimerId } )

/-- The `Config` dataclass (config.py lines 5–14), with its field defaults. -/
structure Config where
  botToken : String
  maxTimers : Nat := 3
  maxDuration : Nat := 168
  minDuration : Nat := 1
  backupKeepDays : Nat := 7
  checkInterval : Nat := 60
deriving DecidableEq, Repr

/-- Folding `add_timer` over a sequence of calls (userId, duration,
startTime), keeping only the evolving state. -/
def applyAddTimers (db : DB) (calls : List (Int × Int × Int)) : DB :=
  calls.foldl (fun d c => (addTimer d c.1 c.2.1 c.2.2).2) db

/-- Embeds `DatabaseBackup.create_backup` (backup.py lines 16–38): run
`PRAGMA integrity_check` on the live store; on failure return `False`
creating nothing; on success `VACUUM INTO` a new snapshot file (a
point-in-time copy of the live contents) and return `True`.
`integrityOk` models the pragma as a predicate on file contents. -/
def createBackup (integrityOk : String → Bool) (live : String)
    (backups : List String) : Bool × List String :=
  if integrityOk live then (true, backups ++ [live]) else (false, backups)

/-- A snapshot file in the backup directory: name and modification time
(seconds). -/
structure BackupFile where
  name : String
  mtime : Int
deriving DecidableEq, Repr

/-- Python's `timedelta.days`: floor division of the total seconds by
86400 (rounding toward minus infinity). -/
def timedeltaDays (seconds : Int) : Int :=
  Int.fdiv seconds 86400

/-- Embeds `DatabaseBackup.cleanup_old_backups` (backup.py lines 40–51): unlink
every snapshot file with `(current_time - file_time).days > keep_days`;
the surviving directory listing is returned. -/
def cleanupOldBackups (keepDays : Int) (now : Int)
    (files : List BackupFile) : List BackupFile :=
  files.filter (fun f => !(decide (keepDays < timedeltaDays (now - f.mtime))))

/-- The on-disk state touched by `restore_from_backup`: the live store
file's contents and the temporary side file (`db_path + ".temp"`),
`none` when that file does not exist. -/
structure FsState where
  live : String
  temp : Option String
deriving DecidableEq, Repr

/-- Embeds `DatabaseBackup.restore_from_backup` (backup.py lines 53–84):
`shutil.copy2` the live store to the temporary side file, copy the
snapshot over the live store, run `PRAGMA integrity_check` on the result;
on failure copy the side file back over the live store, unlink it
(line 79) and return `False`; on success unlink the side file (line 72)
and return `True`. Returns the result flag and the final file-system
state. -/
def restoreFromBackup (integrityOk : String → Bool) (live snapshot : String) :
    Bool × FsState :=
  let temp := live
  let restored := snapshot
  if integrityOk restored then (true, { live := restored, temp := none })
  else (false, { live := temp, temp := none })

/-- The cache invariant of §3 of the design: every `users` row's
`active_timers` field equals the true count of that user's rows with
`status = 'active'`. -/
def countsOk (db : DB) : Prop :=
  ∀ u ∈ db.users, u.activeTimers = countActive db.timers u.userId

instance decCountsOk (db : DB) : Decidable (countsOk db) :=
  List.decidableBAll _ db.users

/-- A concrete active timer of user 1, for test fixtures. -/
def mkActive (tid : Nat) (num : Nat) : Timer :=
  { timerId := tid, userId := 1, startTime := 0, endTime := 3600,
    duration := 1, timerNumber := num, status := Status.active, notified := false }

/-- A state where user 1 is at the active-timer limit. -/
def threeActiveDB : DB :=
  ⟨[⟨1, "alice", 3⟩], [mkActive 1 1, mkActive 2 2, mkActive 3 3], 4⟩

/-- A state where user 1 has two active timers (below the limit). -/
def twoActiveDB : DB :=
  ⟨[⟨1, "alice", 2⟩], [mkActive 1 1, mkActive 2 2], 3⟩

/-- A `Config` whose `max_timers` differs from the field default. -/
def config5 : Config := { botToken := "token", maxTimers := 5 }

/-- A snapshot file whose modification time is the epoch. -/
def staleBackup : BackupFile := ⟨"backup_20250101_000000.db", 0⟩

lemma countActive_append (ts : List Timer) (t : Timer) (uid : Int) :
    countActive (ts ++ [t]) uid =
      countActive ts uid + (if isActiveFor uid t then 1 else 0) := by
  unfold countActive
  rw [List.filter_append]
  by_cases h : isActiveFor uid t <;> simp [h]

lemma newTimerOf_not_activeFor (db : DB) (uid w : Int) (d s : Int)
    (h : w ≠ uid) : isActiveFor w (newTimerOf db uid d s) = false := by
  simp [isActiveFor, newTimerOf]
  exact fun hh => absurd hh.symm h

lemma activeCount_addTimer_le (db : DB) (uid u : Int) (d s : Int)
    (h : activeCount db u ≤ 3) : activeCount (addTimer db uid d s).2 u ≤ 3 := by
  by_cases hl : 3 ≤ activeCount db uid
  · simpa [addTimer, hl] using h
  · simp only [addTimer, if_neg hl]
    show countActive (db.timers ++ [newTimerOf db uid d s]) u ≤ 3
    rw [countActive_append]
    by_cases hu : u = uid
    · subst hu
      have : activeCount db u < 3 := Nat.lt_of_not_le hl
      have hcnt : countActive db.timers u < 3 := this
      split <;> omega
    · rw [newTimerOf_not_activeFor db uid u d s hu]
      simpa using h

lemma applyAddTimers_le (calls : List (Int × Int × Int)) :
    ∀ db : DB, (∀ u, activeCount db u ≤ 3) →
      ∀ u, activeCount (applyAddTimers db calls) u ≤ 3 := by
  induction calls with
  | nil => intro db h u; exact h u
  | cons c cs ih =>
    intro db h u
    have hstep : applyAddTimers db (c :: cs) =
        applyAddTimers (addTimer db c.1 c.2.1 c.2.2).2 cs := rfl
    rw [hstep]
    exact ih _ (fun v => activeCount_addTimer_le db c.1 v c.2.1 c.2.2 (h v)) u

/-- C1: over any sequence of `add_timer` calls starting from a fresh
database, no user's count of `status='active'` rows ever exceeds the
enforced limit maxTimers = 3, and any `add_timer` call made when the active
count is already at (or past) the limit returns `None` and leaves the state
unchanged. -/
theorem addTimer_limit_invariant (calls : List (Int × Int × Int)) (uid : Int) :
    activeCount (applyAddTimers emptyDB calls) uid ≤ 3 ∧
    ∀ (db : DB) (u : Int) (d s : Int),
      3 ≤ activeCount db u → addTimer db u d s = (none, db) := by
  constructor
  · exact applyAddTimers_le calls emptyDB
      (fun u => by simp [activeCount, countActive, emptyDB]) uid
  · intro db u d s h
    simp [addTimer, h]

/-- Witness for C1 at a concrete trace: four creation attempts by user 1
leave at most 3 active rows, and an attempt with the user at the limit
returns `None` without mutating the state. -/
theorem addTimer_limit_invariant_witness :
    activeCount (applyAddTimers emptyDB [(1, 1, 0), (1, 1, 0), (1, 1, 0), (1, 1, 0)]) 1 ≤ 3 ∧
    addTimer threeActiveDB 1 1 0 = (none, threeActiveDB) :=
  ⟨(addTimer_limit_invariant [(1, 1, 0), (1, 1, 0), (1, 1, 0), (1, 1, 0)] 1).1,
   (addTimer_limit_invariant [] 1).2 threeActiveDB 1 1 0 (by decide)⟩

lemma countActive_map_congr (f : Timer → Timer) (ts : List Timer) (uid : Int)
    (h : ∀ t ∈ ts, isActiveFor uid (f t) = isActiveFor uid t) :
    countActive (ts.map f) uid = countActive ts uid := by
  unfold countActive
  rw [List.filter_map, List.length_map]
  congr 1
  exact List.filter_congr (fun x hx => h x hx)

lemma countsOk_addTimer (db : DB) (uid : Int) (d s : Int) (h : countsOk db) :
    countsOk (addTimer db uid d s).2 := by
  by_cases hl : 3 ≤ activeCount db uid
  · simpa [addTimer, hl] using h
  · simp only [addTimer, if_neg hl]
    intro u hu
    rcases List.mem_map.mp hu with ⟨v, hv, rfl⟩
    unfold recountUser
    by_cases he : v.userId = uid
    · simp [he]
    · have hbeq : (v.userId == uid) = false := by simp [he]
      simp only [hbeq, Bool.false_eq_true, if_false]
      show v.activeTimers = countActive (db.timers ++ [newTimerOf db uid d s]) v.userId
      rw [countActive_append, newTimerOf_not_activeFor db uid v.userId d s he]
      simpa using h v hv

lemma countsOk_checkExpired (db : DB) (now : Int) (h : countsOk db) :
    countsOk (checkExpiredTimers db now).2 := by
  by_cases hE : (expiredOf db now).isEmpty
  · simpa [checkExpiredTimers, hE] using h
  · simp only [checkExpiredTimers, hE, Bool.false_eq_true, if_false]
    intro u hu
    rcases List.mem_map.mp hu with ⟨v, hv, rfl⟩
    rfl

lemma countsOk_deleteTimer (db : DB) (uid : Int) (num : Nat) (h : countsOk db) :
    countsOk (deleteTimer db uid num).2 := by
  intro u hu
  simp only [deleteTimer] at hu ⊢
  rcases List.mem_map.mp hu with ⟨v, hv, rfl⟩
  unfold recountUser
  by_cases he : v.userId = uid
  · simp [he]
  · have hbeq : (v.userId == uid) = false := by simp [he]
    simp only [hbeq, Bool.false_eq_true, if_false]
    rw [countActive_map_congr]
    · exact h v hv
    · intro t ht
      by_cases hc : (t.userId == uid && t.timerNumber == num
          && t.status == Status.active) = true
      · have huid : t.userId = uid := by
          simp only [Bool.and_eq_true, beq_iff_eq] at hc
          exact hc.1.1
        have h1 : isActiveFor v.userId t = false := by
          simp [isActiveFor, huid]
          exact fun hh => (he hh.symm).elim
        have h2 : isActiveFor v.userId
            { t with status := Status.cancelled } = false := by
          simp [isActiveFor]
        simp [hc, h1, h2]
      · simp [hc]

/-- C2: after every committed operation (`add_timer`,
`check_expired_timers`, `delete_timer`), every row of the `users` table has
`active_timers` equal to the true count of that user's `timers` rows with
`status = 'active'`; the invariant is preserved from any state in which it
holds. -/
theorem activeTimerCount_cache (db : DB) (uid : Int) (d s now : Int)
    (num : Nat) (h : countsOk db) :
    countsOk (addTimer db uid d s).2 ∧
    countsOk (checkExpiredTimers db now).2 ∧
    countsOk (deleteTimer db uid num).2 :=
  ⟨countsOk_addTimer db uid d s h,
   countsOk_checkExpired db now h,
   countsOk_deleteTimer db uid num h⟩

/-- Witness for C2 at a concrete state: user 1 at the limit, a scan at the
common expiry instant, and a deletion of timer number 2 all preserve the
cache invariant. -/
theorem activeTimerCount_cache_witness :
    countsOk (addTimer threeActiveDB 1 1 0).2 ∧
    countsOk (checkExpiredTimers threeActiveDB 3600).2 ∧
    countsOk (deleteTimer threeActiveDB 1 2).2 :=
  activeTimerCount_cache threeActiveDB 1 1 0 3600 2 (by decide)

lemma checkExpired_fst (db : DB) (now : Int) :
    (checkExpiredTimers db now).1 = expiredOf db now := by
  unfold checkExpiredTimers
  by_cases hE : (expiredOf db now).isEmpty <;> simp [hE]

lemma checkExpired_snd_empty (db : DB) (now : Int)
    (hE : (expiredOf db now).isEmpty = true) :
    (checkExpiredTimers db now).2 = db := by
  unfold checkExpiredTimers
  simp [hE]

lemma checkExpired_snd_timers (db : DB) (now : Int)
    (hE : ¬ (expiredOf db now).isEmpty = true) :
    (checkExpiredTimers db now).2.timers =
      db.timers.map (markCompleted ((expiredOf db now).map (fun t => t.timerId))) := by
  unfold checkExpiredTimers
  simp [hE]

lemma mem_expiredOf_notified_false {db : DB} {now : Int} {t : Timer}
    (h : t ∈ expiredOf db now) : t.notified = false := by
  rcases List.mem_filter.mp h with ⟨-, hp⟩
  simp only [isExpiredRow, Bool.and_eq_true, Bool.not_eq_true'] at hp
  exact hp.1.2

/-- C3: calling `check_expired_timers` twice, the second call at the same
or a later `now`, never returns the same `timer_id` in both result lists;
every timer returned by a scan has, in the post-scan state, every table row
carrying its `timer_id` set to `status='completed'` and `notified=TRUE`
(the update is keyed by the ids captured at read time); and a timer already
marked `notified=TRUE` is never returned by a scan. -/
theorem scanExpired_idempotent (db : DB) (now1 now2 : Int) (h : now1 ≤ now2) :
    (∀ t1 ∈ (checkExpiredTimers db now1).1,
      ∀ t2 ∈ (checkExpiredTimers (checkExpiredTimers db now1).2 now2).1,
        t1.timerId ≠ t2.timerId) ∧
    (∀ t ∈ (checkExpiredTimers db now1).1,
      ∀ row ∈ (checkExpiredTimers db now1).2.timers, row.timerId = t.timerId →
        row.status = Status.completed ∧ row.notified = true) ∧
    (∀ t ∈ db.timers, t.notified = true → t ∉ (checkExpiredTimers db now1).1) := by
  refine ⟨?_, ?_, ?_⟩
  · intro t1 ht1 t2 ht2
    rw [checkExpired_fst] at ht1
    have hE : ¬ (expiredOf db now1).isEmpty = true := by
      intro hc
      rw [List.isEmpty_iff.mp hc] at ht1
      exact absurd ht1 (List.not_mem_nil t1)
    set ids := (expiredOf db now1).map (fun t => t.timerId) with hids
    have hid1 : t1.timerId ∈ ids := List.mem_map_of_mem _ ht1
    rw [checkExpired_fst] at ht2
    rcases List.mem_filter.mp ht2 with ⟨hmem2, hp2⟩
    have hnot2 : t2.notified = false := by
      simp only [isExpiredRow, Bool.and_eq_true, Bool.not_eq_true'] at hp2
      exact hp2.1.2
    rw [checkExpired_snd_timers db now1 hE] at hmem2
    rcases List.mem_map.mp hmem2 with ⟨t0, _, rfl⟩
    unfold markCompleted at hnot2 ⊢
    by_cases hc : t0.timerId ∈ ids
    · simp [hc] at hnot2
    · simp only [hc, decide_False, Bool.false_eq_true, if_false]
      intro heq
      rw [heq] at hid1
      exact hc hid1
  · intro t ht row hrow heq
    rw [checkExpired_fst] at ht
    have hE : ¬ (expiredOf db now1).isEmpty = true := by
      intro hc
      rw [List.isEmpty_iff.mp hc] at ht
      exact absurd ht (List.not_mem_nil t)
    have hid : t.timerId ∈ (expiredOf db now1).map (fun t => t.timerId) :=
      List.mem_map_of_mem _ ht
    rw [checkExpired_snd_timers db now1 hE] at hrow
    rcases List.mem_map.mp hrow with ⟨t0, _, rfl⟩
    unfold markCompleted at heq ⊢
    by_cases hc : t0.timerId ∈ (expiredOf db now1).map (fun t => t.timerId)
    · simp [hc]
    · simp only [hc, decide_False, Bool.false_eq_true, if_false] at heq
      rw [heq] at hc
      exact absurd hid hc
  · intro t _ hnot hmem
    rw [checkExpired_fst] at hmem
    rw [mem_expiredOf_notified_false hmem] at hnot
    cases hnot

/-- Witness for C3 at a concrete state: user 1's three timers all expire at
3600; two successive scans at that instant return disjoint id sets, the
first scan marks its rows completed and notified, and notified rows are
never returned. -/
theorem scanExpired_idempotent_witness :
    (∀ t1 ∈ (checkExpiredTimers threeActiveDB 3600).1,
      ∀ t2 ∈ (checkExpiredTimers (checkExpiredTimers threeActiveDB 3600).2 3600).1,
        t1.timerId ≠ t2.timerId) ∧
    (∀ t ∈ (checkExpiredTimers threeActiveDB 3600).1,
      ∀ row ∈ (checkExpiredTimers threeActiveDB 3600).2.timers,
        row.timerId = t.timerId →
        row.status = Status.completed ∧ row.notified = true) ∧
    (∀ t ∈ threeActiveDB.timers, t.notified = true →
      t ∉ (checkExpiredTimers threeActiveDB 3600).1) :=
  scanExpired_idempotent threeActiveDB 3600 3600 (by decide)

lemma timerNumber_le_foldr {l : List Timer} {t : Timer} (h : t ∈ l) :
    t.timerNumber ≤ l.foldr (fun a m => max a.timerNumber m) 0 := by
  induction l with
  | nil => cases h
  | cons a as ih =>
    rcases List.mem_cons.mp h with rfl | h'
    · exact le_max_left _ _
    · exact le_trans (ih h') (le_max_right _ _)

lemma le_maxTimerNumber {db : DB} {uid : Int} {t : Timer}
    (ht : t ∈ db.timers) (hu : t.userId = uid) :
    t.timerNumber ≤ maxTimerNumber db uid := by
  have hmem : t ∈ db.timers.filter (fun t => t.userId == uid) :=
    List.mem_filter.mpr ⟨ht, by simp [hu]⟩
  exact timerNumber_le_foldr hmem

/-- C4: a successful `add_timer` assigns `timer_number =
COALESCE(MAX(timer_number), 0) + 1` computed over ALL of the user's rows
(1 when the user has none), hence strictly greater than every number that
user ever received; and `delete_timer` only rewrites statuses, leaving
every row's `(user_id, timer_number)` pair in place, so numbers are never
reused after cancellation or completion. -/
theorem timerNumber_assignment (db : DB) (uid : Int) (d s : Int) (num : Nat)
    (h : activeCount db uid < 3) :
    ((addTimer db uid d s).1 = some db.nextTimerId ∧
      (addTimer db uid d s).2.timers = db.timers ++ [newTimerOf db uid d s] ∧
      (newTimerOf db uid d s).timerNumber = maxTimerNumber db uid + 1 ∧
      ∀ t ∈ db.timers, t.userId = uid →
        t.timerNumber < (newTimerOf db uid d s).timerNumber) ∧
    ((∀ t ∈ db.timers, t.userId ≠ uid) → maxTimerNumber db uid = 0) ∧
    (deleteTimer db uid num).2.timers.map (fun t => (t.userId, t.timerNumber)) =
      db.timers.map (fun t => (t.userId, t.timerNumber)) := by
  have hl : ¬ 3 ≤ activeCount db uid := Nat.not_le_of_lt h
  refine ⟨⟨?_, ?_, rfl, ?_⟩, ?_, ?_⟩
  · simp [addTimer, hl]
  · simp [addTimer, hl]
  · intro t ht hu
    have := le_maxTimerNumber ht hu
    show t.timerNumber < maxTimerNumber db uid + 1
    omega
  · intro hnone
    unfold maxTimerNumber
    rw [List.filter_eq_nil_iff.mpr (fun t ht => by simp [hnone t ht])]
    rfl
  · simp only [deleteTimer]
    rw [List.map_map]
    apply List.map_congr_left
    intro t _
    simp only [Function.comp_apply]
    split <;> rfl

/-- Witness for C4 at a concrete state: user 1 has timers numbered 1 and 2;
the next creation gets number 3 = max + 1, strictly above both, and
deleting a timer keeps every `(user_id, timer_number)` pair in the table. -/
theorem timerNumber_assignment_witness :
    ((addTimer twoActiveDB 1 1 0).1 = some twoActiveDB.nextTimerId ∧
      (addTimer twoActiveDB 1 1 0).2.timers =
        twoActiveDB.timers ++ [newTimerOf twoActiveDB 1 1 0] ∧
      (newTimerOf twoActiveDB 1 1 0).timerNumber = maxTimerNumber twoActiveDB 1 + 1 ∧
      ∀ t ∈ twoActiveDB.timers, t.userId = 1 →
        t.timerNumber < (newTimerOf twoActiveDB 1 1 0).timerNumber) ∧
    ((∀ t ∈ twoActiveDB.timers, t.userId ≠ 1) → maxTimerNumber twoActiveDB 1 = 0) ∧
    (deleteTimer twoActiveDB 1 2).2.timers.map (fun t => (t.userId, t.timerNumber)) =
      twoActiveDB.timers.map (fun t => (t.userId, t.timerNumber)) :=
  timerNumber_assignment twoActiveDB 1 1 0 2 (by decide)

/-- C5 (code-bug evidence): `delete_timer` returns `True` even when no row
was affected — on the empty database the call matches no active timer,
leaves the state unchanged, and still returns `True`, although the caller
`cmd_delete` (main.py lines 176–180) branches on this return value to tell
the user found from not-found. -/
theorem deleteTimer_true_without_match :
    (deleteTimer emptyDB 1 1).1 = true ∧ (deleteTimer emptyDB 1 1).2 = emptyDB := by
  decide

/-- C6: `restore_from_backup` is failure-atomic — when the post-restore
integrity check rejects the snapshot, the live store is restored from the
temporary side file so its final contents are byte-identical to its
pre-restore contents and `False` is reported; when the check passes, the
live store holds the snapshot, passes the check, `True` is reported, and
the temporary side file is removed. -/
theorem restore_atomicity (integrityOk : String → Bool) (live snapshot : String) :
    (integrityOk snapshot = false →
      restoreFromBackup integrityOk live snapshot =
        (false, { live := live, temp := none })) ∧
    (integrityOk snapshot = true →
      restoreFromBackup integrityOk live snapshot =
        (true, { live := snapshot, temp := none }) ∧
      integrityOk (restoreFromBackup integrityOk live snapshot).2.live = true ∧
      (restoreFromBackup integrityOk live snapshot).2.temp = none) := by
  constructor
  · intro h
    simp [restoreFromBackup, h]
  · intro h
    refine ⟨by simp [restoreFromBackup, h], by simp [restoreFromBackup, h], ?_⟩
    simp [restoreFromBackup, h]

/-- Witness for C6 at concrete contents: restoring a corrupt snapshot
leaves the live store unchanged and reports failure; restoring a valid one
installs it and removes the temporary side file. -/
theorem restore_atomicity_witness :
    restoreFromBackup (fun s => s == "ok") "live0" "corrupt" =
      (false, { live := "live0", temp := none }) ∧
    restoreFromBackup (fun s => s == "ok") "live0" "ok" =
      (true, { live := "ok", temp := none }) ∧
    (restoreFromBackup (fun s => s == "ok") "live0" "ok").2.temp = none :=
  ⟨(restore_atomicity (fun s => s == "ok") "live0" "corrupt").1 (by decide),
   ((restore_atomicity (fun s => s == "ok") "live0" "ok").2 (by decide)).1,
   ((restore_atomicity (fun s => s == "ok") "live0" "ok").2 (by decide)).2.2⟩

/-- C7 (code-bug evidence): the creation limit enforced by `add_timer` is
the literal 3 (database.py line 90), not the configured `max_timers`: under
a `Config` with `max_timers = 5`, a user with 3 active timers is below the
configured limit, yet `add_timer` still returns `None`. -/
theorem addTimer_ignores_configured_limit :
    activeCount threeActiveDB 1 < config5.maxTimers ∧
    (addTimer threeActiveDB 1 1 0).1 = none := by
  decide

/-- C8: `create_backup` runs the integrity check first — when the check
fails it returns `False` and creates no snapshot file; a snapshot is
produced (and `True` returned) only when the check passes. -/
theorem createBackup_integrity_gate (integrityOk : String → Bool)
    (live : String) (backups : List String) :
    (integrityOk live = false →
      createBackup integrityOk live backups = (false, backups)) ∧
    (integrityOk live = true →
      createBackup integrityOk live backups = (true, backups ++ [live])) := by
  constructor <;> intro h <;> simp [createBackup, h]

/-- Witness for C8 at concrete contents: a failing check creates nothing
and reports failure; a passing check produces the snapshot. -/
theorem createBackup_integrity_gate_witness :
    createBackup (fun s => s == "ok") "corrupt" [] = (false, []) ∧
    createBackup (fun s => s == "ok") "ok" [] = (true, ["ok"]) :=
  ⟨(createBackup_integrity_gate (fun s => s == "ok") "corrupt" []).1 (by decide),
   (createBackup_integrity_gate (fun s => s == "ok") "ok" []).2 (by decide)⟩

/-- C9 counterexample: with `keep_days = 7` and a file 7 days and 1 hour
old (now = 608400 s, mtime = 0), the file is strictly older than 7 days,
yet `cleanup_old_backups` keeps it, because `(now - mtime).days = 7` is not
`> 7`. The claim "deletes exactly those files older than keepDays" is
therefore false on the code. -/
theorem cleanup_keeps_file_older_than_keepDays :
    (7 : Int) * 86400 < 608400 - staleBackup.mtime ∧
    cleanupOldBackups 7 608400 [staleBackup] = [staleBackup] := by
  decide

/-- C9 (amended): `cleanup_old_backups` deletes exactly those snapshot
files whose age `now - mtime`, floor-divided into whole days (Python
`timedelta.days`), strictly exceeds `keep_days` — equivalently, a file is
kept if and only if its whole-day age is at most `keep_days`; the decision
uses only the file's modification time, never snapshot content. -/
theorem cleanup_prune_characterization (keepDays now : Int)
    (files : List BackupFile) (f : BackupFile) :
    f ∈ cleanupOldBackups keepDays now files ↔
      f ∈ files ∧ timedeltaDays (now - f.mtime) ≤ keepDays := by
  simp [cleanupOldBackups, List.mem_filter, not_lt]

/-- C10: `add_timer` collapses the capacity outcome and the storage-error
outcome into the same return value — at the active-timer limit, the call
returns `None` whether or not a storage error occurs, so the caller cannot
distinguish the two from the return value alone. -/
theorem addTimer_error_indistinguishable (db : DB) (uid : Int) (d s : Int)
    (h : 3 ≤ activeCount db uid) :
    (addTimerWithErr true db uid d s).1 = none ∧
    (addTimerWithErr false db uid d s).1 = none ∧
    (addTimerWithErr true db uid d s).1 = (addTimerWithErr false db uid d s).1 := by
  simp [addTimerWithErr, addTimer, h]

/-- Witness for C10 at a concrete state: with user 1 at the limit, the
error path and the capacity path both return `None`. -/
theorem addTimer_error_indistinguishable_witness :
    (addTimerWithErr true threeActiveDB 1 1 0).1 = none ∧
    (addTimerWithErr false threeActiveDB 1 1 0).1 = none ∧
    (addTimerWithErr true threeActiveDB 1 1 0).1 =
      (addTimerWithErr false threeActiveDB 1 1 0).1 :=
  addTimer_error_indistinguishable threeActiveDB 1 1 0 (by decide)

end TimerBot
